import Mathlib

/-!
Verification of the Protein Intelligence Agent against its specification.

The frontend data model and handlers are embedded from the TypeScript
sources under `src/frontend` and the application files (`App.tsx`,
`api.ts`, `useProteinData.ts`).  The orchestration pipeline (Resolver,
Fetch Orchestrator, Aggregator, Scorer, Summarizer, Validator) lives in
the Python backend, which is not part of the available sources; those
parts are modelled from the specification and are marked as such in
their doc comments.
-/

namespace ProteinAgent

/-! ## Frontend data model, from `src/frontend/src/types/protein.ts` -/

structure QueryInfo where
  name : String
  species : String
  taxid : Option Nat
deriving Repr, DecidableEq

structure UniProtInfo where
  accession : String
  reviewed : Bool
  gene : Option String
  protein_name : String
  organism : String
  length : Nat
  sequence : Option String
deriving Repr, DecidableEq

structure GOTerm where
  id : String
  name : String
  category : String
  evidence : Option String
deriving Repr, DecidableEq

structure GOAnnotationSets where
  biological_process : List GOTerm
  molecular_function : List GOTerm
  cellular_component : List GOTerm
deriving Repr, DecidableEq

/-- TypeScript `Domain`; the field `end` is renamed `stop` because `end`
is a Lean keyword. -/
structure Domain where
  source : String
  id : String
  name : String
  description : Option String
  start : Option Nat
  stop : Option Nat
deriving Repr, DecidableEq

structure PDBEntry where
  id : String
  method : String
  resolution : Option ℚ
  chains : List String
  coverage : Option String
deriving Repr, DecidableEq

structure ConfidenceRanges where
  very_high : ℚ
  confident : ℚ
  low : ℚ
  very_low : ℚ
deriving Repr, DecidableEq

structure AlphaFoldModel where
  model_url : String
  pdb_url : String
  image_url : String
  confidence_avg : Option ℚ
  confidence_ranges : Option ConfidenceRanges
deriving Repr, DecidableEq

structure StructureInfo where
  pdb_entries : List PDBEntry
  alphafold : Option AlphaFoldModel
deriving Repr, DecidableEq

structure Interaction where
  partner_id : String
  partner_name : String
  score : ℚ
  source : String
deriving Repr, DecidableEq

structure Pathway where
  database : String
  id : String
  name : String
  url : Option String
deriving Repr, DecidableEq

/-- TypeScript `SourceLinks`: the `uniprot` link is mandatory, all other
links are optional.  The field `string` keeps the source's name (the
STRING database). -/
structure SourceLinks where
  uniprot : String
  rcsb : Option String
  alphafold : Option String
  string : Option String
  reactome : Option String
deriving Repr, DecidableEq

structure ProvenanceInfo where
  source : String
  retrieved : String
  status : String
deriving Repr, DecidableEq

/-- TypeScript `ProteinReport`; `rarity` is the string union
`gold | silver | bronze`, modelled as `String` since the frontend code
(`getRarityStars`, `getRarityColor`) treats it as an arbitrary string. -/
structure ProteinReport where
  query : QueryInfo
  uniprot : UniProtInfo
  function_summary : String
  go_terms : GOAnnotationSets
  domains : List Domain
  structures : StructureInfo
  interactions : List Interaction
  pathways : List Pathway
  source_links : SourceLinks
  provenance : List ProvenanceInfo
  rarity : String
  completeness_score : ℚ
deriving Repr, DecidableEq

structure ProteinSearchRequest where
  query : String
  species : Option String
  include_sequence : Option Bool
deriving Repr, DecidableEq

structure ProteinSearchResponse where
  success : Bool
  data : Option ProteinReport
  error : Option String
  processing_time : ℚ
deriving Repr, DecidableEq

/-! ## Frontend behaviour, from the React components -/

/-- JavaScript short-circuit defaulting `v || fallback` on an optional
string: the fallback is taken when the value is absent or empty (both
falsy in JavaScript).  Used by `App.handleSearch`. -/
def jsOrElse (v : Option String) (fallback : String) : String :=
  match v with
  | some s => if s = "" then fallback else s
  | none => fallback

/-- The request body built in `App.handleSearch` (`App.tsx`): the query
and species chosen in the search bar, with `include_sequence` always
`false`. -/
def buildSearchRequest (query species : String) : ProteinSearchRequest :=
  { query := query, species := some species, include_sequence := some false }

/-- The two pieces of component state that `App.handleSearch` writes:
`searchResult` and `searchError`. -/
structure AppSearchState where
  searchResult : Option ProteinReport
  searchError : Option String
deriving Repr, DecidableEq

/-- Outcome of awaiting `proteinSearch.mutateAsync`: either a resolved
`ProteinSearchResponse`, or a thrown error carrying
`error.response?.data?.detail` and `error.message`. -/
inductive SearchOutcome where
  | response (r : ProteinSearchResponse)
  | thrown (detail : Option String) (message : Option String)
deriving Repr, DecidableEq

/-- `App.handleSearch` (`App.tsx` lines 21-40): on a response with
`success` and `data` it stores the report and clears the error;
otherwise it leaves the result unset and stores a single error message,
defaulting via `||`. -/
def handleSearch (outcome : SearchOutcome) : AppSearchState :=
  match outcome with
  | .response r =>
      if r.success = true ∧ r.data.isSome = true then
        { searchResult := r.data, searchError := none }
      else
        { searchResult := none
          searchError := some (jsOrElse r.error ("No protein found for your search")) }
  | .thrown detail message =>
      { searchResult := none
        searchError := some (jsOrElse detail (jsOrElse message ("Search failed"))) }

/-- The `SearchBar` component state relevant to submission. -/
structure SearchBarState where
  query : String
  species : String
  isLoading : Bool
deriving Repr, DecidableEq

/-- Initial `SearchBar` state: `useState('')` for the query and
`useState('Homo sapiens')` for the species. -/
def initialSearchBarState : SearchBarState :=
  { query := "", species := "Homo sapiens", isLoading := false }

/-- JavaScript `String.prototype.trim`: removes whitespace from both
ends of the string. -/
def trimChars (cs : List Char) : List Char :=
  ((cs.dropWhile (fun c => c.isWhitespace)).reverse.dropWhile
    (fun c => c.isWhitespace)).reverse

def jsTrim (s : String) : String :=
  String.mk (trimChars s.data)

/-- `SearchBar.handleSubmit` (`SearchBar.tsx` lines 38-43): invokes
`onSearch(query.trim(), species)` only when `query.trim()` is truthy
(non-empty) and not loading; returns the arguments passed to `onSearch`,
or `none` when `onSearch` is not called. -/
def handleSubmit (st : SearchBarState) : Option (String × String) :=
  if jsTrim st.query ≠ "" ∧ st.isLoading = false then
    some (jsTrim st.query, st.species)
  else
    none

/-- The react-query client cache, as a map from query keys to cached
reports.  `useProteinSearch` uses two-element keys of the shape
(protein, accession), modelled as a pair of strings. -/
def QueryCache : Type := String × String → Option ProteinReport

/-- `queryClient.setQueryData`: functional update of one cache key. -/
def setQueryData (cache : QueryCache) (key : String × String)
    (value : ProteinReport) : QueryCache :=
  fun k => if k = key then some value else cache k

/-- The `onSuccess` handler of `useProteinSearch`
(`useProteinData.ts` lines 10-18): caches the report under the key
(protein, accession) exactly when `data.success && data.data`. -/
def useProteinSearchOnSuccess (cache : QueryCache)
    (r : ProteinSearchResponse) : QueryCache :=
  match r.success, r.data with
  | true, some d => setQueryData cache (("protein"), d.uniprot.accession) d
  | _, _ => cache

/-- Cache state after one `mutateAsync` call: react-query runs
`onSuccess` only when the mutation function resolves; a rejected
promise leaves the cache untouched. -/
def mutationCacheAfter (cache : QueryCache)
    (outcome : Except String ProteinSearchResponse) : QueryCache :=
  match outcome with
  | .ok r => useProteinSearchOnSuccess cache r
  | .error _ => cache

/-- `ProteinCard.getRarityStars` (`ProteinCard.tsx` lines 27-37):
renders 3 `Star` elements, the element at index `i` filled exactly when
`i < count` with `count` 3 for gold, 2 for silver and 1 otherwise.
Each star is modelled by its `filled` flag. -/
def getRarityStars (rarity : String) : List Bool :=
  let count : Nat := if rarity = "gold" then 3 else if rarity = "silver" then 2 else 1
  (List.range 3).map (fun i => decide (i < count))

/-! ## Backend pipeline

The Python backend (FastAPI + LangGraph) is not part of the available
sources; the pipeline below is modelled from the specification
(sections 2-4 and 7) and the README's description of the workflow. -/

/-- Modelled from the spec: the six configured data sources (UniProt,
RCSB PDB, AlphaFold, InterPro, STRING, Reactome); the backend's source
enumeration is not in the sources. -/
inductive Source where
  | uniprot
  | rcsb
  | alphafold
  | interpro
  | stringdb
  | reactome
deriving Repr, DecidableEq, Fintype

/-- The configured sources, in their fixed order. -/
def Source.all : List Source :=
  [.uniprot, .rcsb, .alphafold, .interpro, .stringdb, .reactome]

/-- Wire name of each source, matching the keys the frontend displays. -/
def Source.name : Source → String
  | .uniprot => "uniprot"
  | .rcsb => "rcsb"
  | .alphafold => "alphafold"
  | .interpro => "interpro"
  | .stringdb => "string"
  | .reactome => "reactome"

/-- Modelled from the spec: terminal status of one fetch
(`Success | Failure | Timeout`); the backend's status type is not in
the sources. -/
inductive FetchStatus where
  | success
  | failure
  | timeout
deriving Repr, DecidableEq

/-- Wire name of a fetch status, as shown in the provenance panel. -/
def FetchStatus.name : FetchStatus → String
  | .success => "success"
  | .failure => "failure"
  | .timeout => "timeout"

/-- Modelled from the spec: the discriminated payload union, one variant
per source family; the backend's payload types are not in the sources.
Payload contents are kept abstract where the claims do not inspect
them. -/
inductive SourcePayload where
  | ontologyTerms (functionText : Option String)
  | structuralEntries (entries : List String)
  | predictedModel (modelUrl : String)
  | domainEntries (entries : List String)
  | interactionEdges (edges : List String)
  | pathwayMemberships (entries : List String)
deriving Repr, DecidableEq

/-- Modelled from the spec: per-source `FetchResult`; the backend's
result type is not in the sources. -/
structure FetchResult where
  source : Source
  status : FetchStatus
  payload : Option SourcePayload
  retrievedAt : Nat
  errorDetail : Option String
deriving Repr, DecidableEq

/-- Modelled from the spec: the externally determined terminal outcome
of one fetcher (the provider and the network are collaborators outside
the pipeline). -/
structure FetchOutcome where
  status : FetchStatus
  payload : Option SourcePayload
  retrievedAt : Nat
  errorDetail : Option String
deriving Repr, DecidableEq

/-- Modelled from the spec: `ResolvedIdentity`, created once by the
Resolver; the backend's model type is not in the sources. -/
structure ResolvedIdentity where
  accession : String
  reviewed : Bool
  gene : Option String
  organism : String
  sequenceLength : Nat
deriving Repr, DecidableEq

/-- Modelled from the spec: `ResolutionError{NotFound, AmbiguousSpecies}`. -/
inductive ResolutionError where
  | notFound
  | ambiguousSpecies
deriving Repr, DecidableEq

/-- Modelled from the spec: the Fetch Orchestrator `fetchAll`.  Each
fetcher's terminal outcome is a parameter; the orchestrator writes one
`FetchResult` per source into its own slot, carrying a payload only on
success. -/
def fetchAll (run : Source → FetchOutcome) : Source → FetchResult :=
  fun s =>
    { source := s
      status := (run s).status
      payload := if (run s).status = .success then (run s).payload else none
      retrievedAt := (run s).retrievedAt
      errorDetail := (run s).errorDetail }

/-- Modelled from the spec: the unified report assembled by the
Aggregator, before score and narrative are attached. -/
structure AggregatedReport where
  identity : ResolvedIdentity
  functionText : Option String
  structures : List String
  alphafoldModel : Option String
  domains : List String
  interactions : List String
  pathways : List String
  source_links : SourceLinks
  provenance : List ProvenanceInfo
deriving Repr, DecidableEq

/-- Payload of a source when and only when that source succeeded. -/
def successPayload (results : Source → FetchResult) (s : Source) :
    Option SourcePayload :=
  if (results s).status = .success then (results s).payload else none

def mergedFunctionText (p : Option SourcePayload) : Option String :=
  match p with
  | some (.ontologyTerms t) => t
  | _ => none

def mergedStructures (p : Option SourcePayload) : List String :=
  match p with
  | some (.structuralEntries es) => es
  | _ => []

def mergedAlphaFold (p : Option SourcePayload) : Option String :=
  match p with
  | some (.predictedModel u) => some u
  | _ => none

def mergedDomains (p : Option SourcePayload) : List String :=
  match p with
  | some (.domainEntries ds) => ds
  | _ => []

def mergedInteractions (p : Option SourcePayload) : List String :=
  match p with
  | some (.interactionEdges es) => es
  | _ => []

def mergedPathways (p : Option SourcePayload) : List String :=
  match p with
  | some (.pathwayMemberships ps) => ps
  | _ => []

/-- Canonical URL for the primary identity source. -/
def uniprotUrl (accession : String) : String :=
  ("https://www.uniprot.org/uniprotkb/") ++ accession

def rcsbUrl (accession : String) : String :=
  ("https://www.rcsb.org/search?q=") ++ accession

def alphafoldUrl (accession : String) : String :=
  ("https://alphafold.ebi.ac.uk/entry/") ++ accession

def stringUrl (accession : String) : String :=
  ("https://string-db.org/network/") ++ accession

def reactomeUrl (accession : String) : String :=
  ("https://reactome.org/content/query?q=") ++ accession

/-- Modelled from the spec: the Aggregator.  Merged fields come from
the first (here: only) successful source of each family; `source_links`
always carries the primary identity link and a source-specific link
exactly when that source succeeded; `provenance` has one record per
configured source drawn directly from the result map. -/
def aggregate (identity : ResolvedIdentity)
    (results : Source → FetchResult) : AggregatedReport :=
  { identity := identity
    functionText := mergedFunctionText (successPayload results .uniprot)
    structures := mergedStructures (successPayload results .rcsb)
    alphafoldModel := mergedAlphaFold (successPayload results .alphafold)
    domains := mergedDomains (successPayload results .interpro)
    interactions := mergedInteractions (successPayload results .stringdb)
    pathways := mergedPathways (successPayload results .reactome)
    source_links :=
      { uniprot := uniprotUrl identity.accession
        rcsb := if (results .rcsb).status = .success
          then some (rcsbUrl identity.accession) else none
        alphafold := if (results .alphafold).status = .success
          then some (alphafoldUrl identity.accession) else none
        string := if (results .stringdb).status = .success
          then some (stringUrl identity.accession) else none
        reactome := if (results .reactome).status = .success
          then some (reactomeUrl identity.accession) else none }
    provenance := Source.all.map (fun s =>
      { source := s.name
        retrieved := toString (results s).retrievedAt
        status := ((results s).status).name }) }

/-- Modelled from the spec: the Scorer's fixed checklist of interesting
fields (has narrative candidate data, has a structure, has an
interaction, has a pathway, has a domain, has reviewed identity). -/
structure Checklist where
  hasFunctionData : Bool
  hasStructure : Bool
  hasInteraction : Bool
  hasPathway : Bool
  hasDomain : Bool
  reviewedIdentity : Bool
deriving Repr, DecidableEq, Fintype

/-- Which checklist items an aggregated report satisfies. -/
def checklistOf (r : AggregatedReport) : Checklist :=
  { hasFunctionData := r.functionText.isSome
    hasStructure := decide (r.structures ≠ [] ∨ r.alphafoldModel.isSome = true)
    hasInteraction := decide (r.interactions ≠ [])
    hasPathway := decide (r.pathways ≠ [])
    hasDomain := decide (r.domains ≠ [])
    reviewedIdentity := r.identity.reviewed }

/-- Number of satisfied checklist items. -/
def Checklist.count (c : Checklist) : Nat :=
  (if c.hasFunctionData then 1 else 0) +
  (if c.hasStructure then 1 else 0) +
  (if c.hasInteraction then 1 else 0) +
  (if c.hasPathway then 1 else 0) +
  (if c.hasDomain then 1 else 0) +
  (if c.reviewedIdentity then 1 else 0)

/-- The fixed, versioned checklist size. -/
def checklistSize : Nat := 6

/-- Pointwise order on checklists: `d` has every field of `c`
populated (and possibly more). -/
def Checklist.below (c d : Checklist) : Prop :=
  (c.hasFunctionData = true → d.hasFunctionData = true) ∧
  (c.hasStructure = true → d.hasStructure = true) ∧
  (c.hasInteraction = true → d.hasInteraction = true) ∧
  (c.hasPathway = true → d.hasPathway = true) ∧
  (c.hasDomain = true → d.hasDomain = true) ∧
  (c.reviewedIdentity = true → d.reviewedIdentity = true)

instance (c d : Checklist) : Decidable (Checklist.below c d) := by
  unfold Checklist.below
  infer_instance

/-- Modelled from the spec: the Scorer's completeness score, the
fraction of checklist items satisfied, equal weight each. -/
def completenessScore (c : Checklist) : ℚ :=
  (c.count : ℚ) / (checklistSize : ℚ)

/-- Modelled from the spec: `RarityTier` enumeration. -/
inductive RarityTier where
  | gold
  | silver
  | bronze
deriving Repr, DecidableEq

/-- Configured tier thresholds (tunable defaults per the spec). -/
def goldThreshold : ℚ := 4 / 5

def silverThreshold : ℚ := 1 / 2

/-- Modelled from the spec: tier classification — Gold when the score
is at least the gold threshold, Silver when at least the silver
threshold, Bronze otherwise; a score exactly at a threshold takes the
higher tier. -/
def tierOf (score : ℚ) : RarityTier :=
  if goldThreshold ≤ score then .gold
  else if silverThreshold ≤ score then .silver
  else .bronze

/-- Order of the tiers, Bronze lowest. -/
def RarityTier.rank : RarityTier → Nat
  | .bronze => 0
  | .silver => 1
  | .gold => 2

/-- Wire name of a tier, matching the frontend's rarity strings. -/
def RarityTier.name : RarityTier → String
  | .gold => "gold"
  | .silver => "silver"
  | .bronze => "bronze"

/-- Modelled from the spec: the Summarizer's deterministic template
fallback, assembled from the report's fields; it never fails and is
never empty. -/
def fallbackNarrative (r : AggregatedReport) : String :=
  (r.identity.gene.getD r.identity.accession) ++ (" (") ++
    r.identity.accession ++ (") is a ") ++ r.identity.organism ++
    (" protein with ") ++ (toString r.domains.length) ++
    (" characterized domains and ") ++ (toString r.interactions.length) ++
    (" known interactions.")

/-- Modelled from the spec: the Summarizer.  The external
text-generation outcome is a parameter: `none` for timeout, non-2xx or
failure, and an empty string counts as malformed output; both fall back
to the template. -/
def summarize (generated : Option String) (r : AggregatedReport) : String :=
  match generated with
  | some t => if t = "" then fallbackNarrative r else t
  | none => fallbackNarrative r

/-- Modelled from the spec: the report returned by the pipeline —
the aggregated report plus the score, tier and narrative attached by
the later stages. -/
structure PipelineReport where
  report : AggregatedReport
  completeness_score : ℚ
  rarity : RarityTier
  narrative : String
deriving Repr, DecidableEq

/-- Modelled from the spec: the Validator's structured error. -/
inductive ValidationError where
  | badAccession
  | badProvenance
  | badScore
  | emptyNarrative
deriving Repr, DecidableEq

/-- Modelled from the spec: the Validator's final invariant pass —
accession well-formed (modelled as non-empty), one provenance record
per configured source, score within the unit interval, narrative
non-empty. -/
def validate (p : PipelineReport) : Except ValidationError PipelineReport :=
  if p.report.identity.accession = "" then .error .badAccession
  else if p.report.provenance.length ≠ Source.all.length then .error .badProvenance
  else if p.completeness_score < 0 ∨ 1 < p.completeness_score then .error .badScore
  else if p.narrative = "" then .error .emptyNarrative
  else .ok p

/-- Modelled from the spec: errors the pipeline can surface. -/
inductive PipelineError where
  | resolution (e : ResolutionError)
  | validation (e : ValidationError)
deriving Repr, DecidableEq

/-- The report assembled after a successful resolution, before the
final validation pass. -/
def pipelineOutput (identity : ResolvedIdentity) (run : Source → FetchOutcome)
    (generated : Option String) : PipelineReport :=
  let agg := aggregate identity (fetchAll run)
  let score := completenessScore (checklistOf agg)
  { report := agg
    completeness_score := score
    rarity := tierOf score
    narrative := summarize generated agg }

/-- Modelled from the spec: the pipeline entry point `process`.
Resolution failure short-circuits with exactly the resolution error;
otherwise the fan-out, aggregation, scoring and summarization stages
run and the Validator checks the result before return. -/
def process (resolved : Except ResolutionError ResolvedIdentity)
    (run : Source → FetchOutcome) (generated : Option String) :
    Except PipelineError PipelineReport :=
  match resolved with
  | .error e => .error (.resolution e)
  | .ok identity =>
      match validate (pipelineOutput identity run generated) with
      | .ok p => .ok p
      | .error e => .error (.validation e)

/-! ## Helper lemmas -/

lemma Checklist.count_le_six (c : Checklist) : c.count ≤ 6 := by
  unfold Checklist.count
  split_ifs <;> omega

lemma completenessScore_nonneg (c : Checklist) : 0 ≤ completenessScore c := by
  unfold completenessScore checklistSize
  positivity

lemma completenessScore_le_one (c : Checklist) : completenessScore c ≤ 1 := by
  unfold completenessScore checklistSize
  rw [div_le_one (by norm_num)]
  exact_mod_cast c.count_le_six

lemma fallbackNarrative_ne_empty (r : AggregatedReport) :
    fallbackNarrative r ≠ "" := by
  intro h
  have hlen := congrArg String.length h
  simp only [fallbackNarrative, String.length_append] at hlen
  have h20 : (" known interactions.").length = 20 := rfl
  have h0 : ("" : String).length = 0 := rfl
  omega

lemma summarize_ne_empty (generated : Option String) (r : AggregatedReport) :
    summarize generated r ≠ "" := by
  unfold summarize
  match generated with
  | none => exact fallbackNarrative_ne_empty r
  | some t =>
      by_cases ht : t = ""
      · simp only [ht, if_pos rfl]
        exact fallbackNarrative_ne_empty r
      · simpa only [if_neg ht] using ht

lemma aggregate_provenance_length (identity : ResolvedIdentity)
    (results : Source → FetchResult) :
    (aggregate identity results).provenance.length = Source.all.length := by
  simp [aggregate]

lemma aggregate_identity (identity : ResolvedIdentity)
    (results : Source → FetchResult) :
    (aggregate identity results).identity = identity := rfl

lemma process_resolved_ok (identity : ResolvedIdentity)
    (run : Source → FetchOutcome) (generated : Option String)
    (hacc : identity.accession ≠ "") :
    process (.ok identity) run generated =
      .ok (pipelineOutput identity run generated) := by
  have h1 : ¬ (pipelineOutput identity run generated).report.identity.accession = "" :=
    hacc
  have h2 : ¬ (pipelineOutput identity run generated).report.provenance.length ≠
      Source.all.length :=
    fun hne => hne (aggregate_provenance_length identity (fetchAll run))
  have h3 : ¬ ((pipelineOutput identity run generated).completeness_score < 0 ∨
      1 < (pipelineOutput identity run generated).completeness_score) := by
    rw [not_or, not_lt, not_lt]
    exact ⟨completenessScore_nonneg _, completenessScore_le_one _⟩
  have h4 : ¬ (pipelineOutput identity run generated).narrative = "" :=
    summarize_ne_empty generated _
  have hval : validate (pipelineOutput identity run generated) =
      .ok (pipelineOutput identity run generated) := by
    unfold validate
    rw [if_neg h1, if_neg h2, if_neg h3, if_neg h4]
  simp [process, hval]

@[simp] lemma mergedFunctionText_none : mergedFunctionText none = none := rfl

@[simp] lemma mergedStructures_none : mergedStructures none = [] := rfl

@[simp] lemma mergedAlphaFold_none : mergedAlphaFold none = none := rfl

@[simp] lemma mergedDomains_none : mergedDomains none = [] := rfl

@[simp] lemma mergedInteractions_none : mergedInteractions none = [] := rfl

@[simp] lemma mergedPathways_none : mergedPathways none = [] := rfl

lemma ite_one_mono (a b : Bool) (h : a = true → b = true) :
    (if a then (1 : Nat) else 0) ≤ (if b then 1 else 0) := by
  cases a
  · simp
  · simp [h rfl]

lemma Checklist.count_mono (c d : Checklist) (h : c.below d) :
    c.count ≤ d.count := by
  obtain ⟨h1, h2, h3, h4, h5, h6⟩ := h
  unfold Checklist.count
  exact Nat.add_le_add (Nat.add_le_add (Nat.add_le_add (Nat.add_le_add
    (Nat.add_le_add (ite_one_mono _ _ h1) (ite_one_mono _ _ h2))
    (ite_one_mono _ _ h3)) (ite_one_mono _ _ h4)) (ite_one_mono _ _ h5))
    (ite_one_mono _ _ h6)

/-! ## Sample inputs used by the witnesses -/

/-- The BRCA1 identity from the spec's concrete scenario. -/
def sampleIdentity : ResolvedIdentity :=
  { accession := "P38398"
    reviewed := true
    gene := some ("BRCA1")
    organism := "Homo sapiens"
    sequenceLength := 1863 }

/-- Every fetcher reports a provider failure. -/
def allFailRun : Source → FetchOutcome :=
  fun _ =>
    { status := .failure
      payload := none
      retrievedAt := 0
      errorDetail := some ("provider error") }

/-- A minimal concrete report for cache-policy witnesses. -/
def sampleReport : ProteinReport :=
  { query := { name := "BRCA1", species := "Homo sapiens", taxid := some 9606 }
    uniprot :=
      { accession := "P38398"
        reviewed := true
        gene := some ("BRCA1")
        protein_name := "Breast cancer type 1 susceptibility protein"
        organism := "Homo sapiens"
        length := 1863
        sequence := none }
    function_summary := "Tumor suppressor."
    go_terms :=
      { biological_process := [], molecular_function := [], cellular_component := [] }
    domains := []
    structures := { pdb_entries := [], alphafold := none }
    interactions := []
    pathways := []
    source_links :=
      { uniprot := uniprotUrl ("P38398"), rcsb := none, alphafold := none
        string := none, reactome := none }
    provenance := []
    rarity := "gold"
    completeness_score := 1 }

def emptyCache : QueryCache := fun _ => none

def sampleResponse : ProteinSearchResponse :=
  { success := true, data := some sampleReport, error := none, processing_time := 2 }

def failResponse : ProteinSearchResponse :=
  { success := false, data := none, error := some ("No match"), processing_time := 1 }

def sampleSearchBarState : SearchBarState :=
  { query := " BRCA1 ", species := "Homo sapiens", isLoading := false }

/-! ## Claims -/

/-- C1: for every valid query that resolves to an identity, the
returned report's provenance list has exactly one entry per configured
source — exactly 6 entries — regardless of how many sources succeeded,
failed or timed out. -/
theorem provenance_always_six (identity : ResolvedIdentity)
    (run : Source → FetchOutcome) (generated : Option String)
    (hacc : identity.accession ≠ "") :
    ∃ p, process (.ok identity) run generated = .ok p ∧
      p.report.provenance.length = 6 :=
  ⟨pipelineOutput identity run generated,
    process_resolved_ok identity run generated hacc,
    aggregate_provenance_length identity (fetchAll run)⟩

theorem provenance_always_six_witness :
    sampleIdentity.accession ≠ "" ∧
    ∃ p, process (.ok sampleIdentity) allFailRun none = .ok p ∧
      p.report.provenance.length = 6 :=
  ⟨by decide, provenance_always_six sampleIdentity allFailRun none (by decide)⟩

/-- C2: the rarity tier is a monotone threshold classification of the
completeness score — Gold when the score is at least 4/5, Silver when
at least 1/2, Bronze otherwise — and a score exactly at a threshold
classifies into the higher tier. -/
theorem rarity_tier_thresholds (s t : ℚ) (hst : s ≤ t) :
    (tierOf s = .gold ↔ goldThreshold ≤ s) ∧
    (tierOf s = .silver ↔ silverThreshold ≤ s ∧ s < goldThreshold) ∧
    (tierOf s = .bronze ↔ s < silverThreshold) ∧
    tierOf goldThreshold = .gold ∧
    tierOf silverThreshold = .silver ∧
    (tierOf s).rank ≤ (tierOf t).rank := by
  have hgs : silverThreshold < goldThreshold := by
    norm_num [silverThreshold, goldThreshold]
  refine ⟨?_, ?_, ?_, ?_, ?_, ?_⟩
  · unfold tierOf
    split_ifs with h1 h2 <;> simp_all
  · unfold tierOf
    split_ifs with h1 h2 <;> simp_all
  · unfold tierOf
    split_ifs with h1 h2 <;> simp_all
    linarith
  · unfold tierOf
    rw [if_pos le_rfl]
  · unfold tierOf
    rw [if_neg (by linarith), if_pos le_rfl]
  · unfold tierOf
    split_ifs with h1 h2 h3 h4 <;>
        simp only [RarityTier.rank] <;>
      first
        | omega
        | linarith

theorem rarity_tier_thresholds_witness :
    ((4 : ℚ) / 5 ≤ (9 : ℚ) / 10) ∧
    (tierOf ((4 : ℚ) / 5)).rank ≤ (tierOf ((9 : ℚ) / 10)).rank :=
  ⟨by norm_num,
    (rarity_tier_thresholds ((4 : ℚ) / 5) ((9 : ℚ) / 10) (by norm_num)).2.2.2.2.2⟩

/-- C9: every protein search request the UI sends has
`include_sequence` set to `false`, so sequence data is never requested
through this interface. -/
theorem include_sequence_always_false (query species : String) :
    (buildSearchRequest query species).include_sequence = some false := rfl

/-- C10: `getRarityStars` is total and monotone over the rarity tiers:
for every input string it returns exactly 3 star elements, with 3
filled for gold, 2 for silver and 1 for any other input, so at least
one star is always filled. -/
theorem rarity_stars_total (rarity : String) :
    (getRarityStars rarity).length = 3 ∧
    (getRarityStars rarity).count true =
      (if rarity = "gold" then 3 else if rarity = "silver" then 2 else 1) ∧
    1 ≤ (getRarityStars rarity).count true := by
  by_cases hg : rarity = "gold"
  · subst hg
    decide
  · by_cases hs : rarity = "silver"
    · subst hs
      decide
    · unfold getRarityStars
      simp only [if_neg hg, if_neg hs]
      decide

/-- C3: if resolution fails, the caller receives exactly a
`ResolutionError` and no report, score or narrative is produced; in the
frontend, a response without success-and-data leaves the displayed
result unset and shows a single error message. -/
theorem resolution_failure_short_circuits (e : ResolutionError)
    (run : Source → FetchOutcome) (generated : Option String)
    (r : ProteinSearchResponse)
    (hr : ¬ (r.success = true ∧ r.data.isSome = true)) :
    process (.error e) run generated = .error (.resolution e) ∧
    (handleSearch (.response r)).searchResult = none ∧
    (handleSearch (.response r)).searchError =
      some (jsOrElse r.error ("No protein found for your search")) := by
  refine ⟨rfl, ?_, ?_⟩ <;> simp [handleSearch, hr]

theorem resolution_failure_short_circuits_witness :
    ¬ (failResponse.success = true ∧ failResponse.data.isSome = true) ∧
    (process (.error .notFound) allFailRun none = .error (.resolution .notFound) ∧
      (handleSearch (.response failResponse)).searchResult = none ∧
      (handleSearch (.response failResponse)).searchError =
        some (jsOrElse failResponse.error ("No protein found for your search"))) :=
  ⟨by decide,
    resolution_failure_short_circuits .notFound allFailRun none failResponse (by decide)⟩

/-- C4: if all 6 fetchers fail, the pipeline still returns a valid
report — not an error — whose score is the floor defined by the
identity-only checklist item, and whose narrative is the non-empty
deterministic template fallback. -/
theorem all_fetchers_fail_still_reports (identity : ResolvedIdentity)
    (run : Source → FetchOutcome)
    (hacc : identity.accession ≠ "")
    (hfail : ∀ s, (run s).status ≠ FetchStatus.success) :
    ∃ p, process (.ok identity) run none = .ok p ∧
      p.completeness_score = (if identity.reviewed then (1 : ℚ) else 0) / 6 ∧
      p.narrative = fallbackNarrative p.report ∧
      p.narrative ≠ "" := by
  refine ⟨pipelineOutput identity run none,
    process_resolved_ok identity run none hacc, ?_, rfl, ?_⟩
  · have hsp : ∀ s, successPayload (fetchAll run) s = none := fun s => by
      simp [successPayload, fetchAll, hfail s]
    have hagg : checklistOf (aggregate identity (fetchAll run)) =
        { hasFunctionData := false, hasStructure := false, hasInteraction := false
          hasPathway := false, hasDomain := false
          reviewedIdentity := identity.reviewed } := by
      simp [checklistOf, aggregate, hsp]
    show completenessScore (checklistOf (aggregate identity (fetchAll run))) = _
    rw [hagg]
    cases hrev : identity.reviewed <;>
      simp [completenessScore, Checklist.count, checklistSize]
  · exact summarize_ne_empty none _

theorem all_fetchers_fail_still_reports_witness :
    sampleIdentity.accession ≠ "" ∧
    (∀ s, (allFailRun s).status ≠ FetchStatus.success) ∧
    ∃ p, process (.ok sampleIdentity) allFailRun none = .ok p ∧
      p.completeness_score = (if sampleIdentity.reviewed then (1 : ℚ) else 0) / 6 ∧
      p.narrative = fallbackNarrative p.report ∧
      p.narrative ≠ "" :=
  ⟨by decide, by decide,
    all_fetchers_fail_still_reports sampleIdentity allFailRun (by decide) (by decide)⟩

/-- C5: the completeness score is always within the unit interval and
is monotonically non-decreasing as more checklist fields become
populated while the other fields are held fixed. -/
theorem completeness_score_bounds_and_mono (c d : Checklist)
    (h : c.below d) :
    0 ≤ completenessScore c ∧ completenessScore c ≤ 1 ∧
    completenessScore c ≤ completenessScore d := by
  refine ⟨completenessScore_nonneg c, completenessScore_le_one c, ?_⟩
  unfold completenessScore checklistSize
  gcongr
  exact_mod_cast Checklist.count_mono c d h

theorem completeness_score_bounds_and_mono_witness :
    Checklist.below
      { hasFunctionData := false, hasStructure := true, hasInteraction := false
        hasPathway := false, hasDomain := false, reviewedIdentity := true }
      { hasFunctionData := true, hasStructure := true, hasInteraction := false
        hasPathway := true, hasDomain := false, reviewedIdentity := true } ∧
    (0 ≤ completenessScore
        { hasFunctionData := false, hasStructure := true, hasInteraction := false
          hasPathway := false, hasDomain := false, reviewedIdentity := true } ∧
      completenessScore
        { hasFunctionData := false, hasStructure := true, hasInteraction := false
          hasPathway := false, hasDomain := false, reviewedIdentity := true } ≤ 1 ∧
      completenessScore
        { hasFunctionData := false, hasStructure := true, hasInteraction := false
          hasPathway := false, hasDomain := false, reviewedIdentity := true } ≤
        completenessScore
          { hasFunctionData := true, hasStructure := true, hasInteraction := false
            hasPathway := true, hasDomain := false, reviewedIdentity := true }) :=
  ⟨by decide, completeness_score_bounds_and_mono _ _ (by decide)⟩

/-- C6: `source_links` always contains a link for the primary identity
source (uniprot), and contains a link for any other source exactly when
that source's fetch succeeded. -/
theorem source_links_policy (identity : ResolvedIdentity)
    (results : Source → FetchResult) :
    (aggregate identity results).source_links.uniprot =
      uniprotUrl identity.accession ∧
    ((aggregate identity results).source_links.rcsb.isSome = true ↔
      (results .rcsb).status = .success) ∧
    ((aggregate identity results).source_links.alphafold.isSome = true ↔
      (results .alphafold).status = .success) ∧
    ((aggregate identity results).source_links.string.isSome = true ↔
      (results .stringdb).status = .success) ∧
    ((aggregate identity results).source_links.reactome.isSome = true ↔
      (results .reactome).status = .success) := by
  refine ⟨rfl, ?_, ?_, ?_, ?_⟩
  · by_cases h : (results .rcsb).status = .success <;> simp [aggregate, h]
  · by_cases h : (results .alphafold).status = .success <;> simp [aggregate, h]
  · by_cases h : (results .stringdb).status = .success <;> simp [aggregate, h]
  · by_cases h : (results .reactome).status = .success <;> simp [aggregate, h]

/-- C7: for every form submission, the search callback is invoked only
if the trimmed query string is non-empty (and then receives the trimmed
query and the selected species), and the species field defaults to
Homo sapiens. -/
theorem search_submission_guard (st : SearchBarState)
    (out : String × String) (h : handleSubmit st = some out) :
    out.1 = jsTrim st.query ∧ out.1 ≠ "" ∧ out.2 = st.species ∧
    initialSearchBarState.species = "Homo sapiens" := by
  unfold handleSubmit at h
  split_ifs at h with hc
  cases Option.some_inj.mp h
  exact ⟨rfl, hc.1, rfl, rfl⟩

theorem search_submission_guard_witness :
    handleSubmit sampleSearchBarState = some (("BRCA1"), ("Homo sapiens")) ∧
    ((("BRCA1"), ("Homo sapiens")).1 = jsTrim sampleSearchBarState.query ∧
      (("BRCA1"), ("Homo sapiens")).1 ≠ "" ∧
      (("BRCA1"), ("Homo sapiens")).2 = sampleSearchBarState.species ∧
      initialSearchBarState.species = "Homo sapiens") :=
  ⟨by decide,
    search_submission_guard sampleSearchBarState (("BRCA1"), ("Homo sapiens"))
      (by decide)⟩

/-- C8: the client cache entry keyed by the resolved accession is
written if and only if the response has `success` and a data payload;
a rejected mutation or a failed response leaves the cache unchanged. -/
theorem cache_write_policy (cache : QueryCache)
    (outcome : Except String ProteinSearchResponse) :
    (∀ r d, outcome = .ok r → r.success = true → r.data = some d →
      mutationCacheAfter cache outcome (("protein"), d.uniprot.accession) =
        some d ∧
      ∀ k, k ≠ (("protein"), d.uniprot.accession) →
        mutationCacheAfter cache outcome k = cache k) ∧
    (∀ r, outcome = .ok r → ¬ (r.success = true ∧ r.data.isSome = true) →
      mutationCacheAfter cache outcome = cache) ∧
    (∀ msg, outcome = .error msg → mutationCacheAfter cache outcome = cache) := by
  refine ⟨?_, ?_, ?_⟩
  · rintro r d rfl hs hd
    constructor
    · simp [mutationCacheAfter, useProteinSearchOnSuccess, hs, hd, setQueryData]
    · intro k hk
      simp [mutationCacheAfter, useProteinSearchOnSuccess, hs, hd, setQueryData, hk]
  · rintro r rfl hns
    cases hs : r.success <;> cases hd : r.data
    · simp [mutationCacheAfter, useProteinSearchOnSuccess, hs, hd]
    · simp [mutationCacheAfter, useProteinSearchOnSuccess, hs, hd]
    · simp [mutationCacheAfter, useProteinSearchOnSuccess, hs, hd]
    · exact absurd ⟨hs, by rw [hd]; rfl⟩ hns
  · rintro msg rfl
    rfl

theorem cache_write_policy_witness :
    mutationCacheAfter emptyCache (.ok sampleResponse)
      (("protein"), ("P38398")) = some sampleReport :=
  ((cache_write_policy emptyCache (.ok sampleResponse)).1 sampleResponse
    sampleReport rfl rfl rfl).1

end ProteinAgent
